import Mathlib

/-!
Shallow embedding of the Velocity dashboard numeric pipeline from
src/app.py: growth-rate columns over 240/480/1200-day lookback windows
(calculate_velocity, lines 15-21), the NaN-dropping filter and
latest-row extraction of the orchestrating script (lines 59-78), and
the trading-zone classifier get_trading_recommendation (lines 88-98).

Floating-point cells are modelled exactly: a cell is NaN, a signed
infinity, or a finite rational.  The arithmetic mirrors the IEEE
semantics pandas/numpy use on these operations: division of a nonzero
finite value by zero yields a signed infinity, 0/0 yields NaN, NaN
propagates through every operation, and every comparison against NaN
is false.  Finite values are exact rationals; no claim below depends
on rounding.
-/

namespace VelocityDashboard

/-- A pandas float cell: NaN, a signed infinity (true means positive), or a finite value. -/
inductive FV where
  | nan : FV
  | inf : Bool → FV
  | fin : ℚ → FV
deriving DecidableEq

/-- NaN test, as used by dropna. -/
def FV.isNaN : FV → Bool
  | nan => true
  | _ => false

/-- IEEE subtraction on cells. -/
def FV.sub : FV → FV → FV
  | nan, _ => nan
  | _, nan => nan
  | fin a, fin b => fin (a - b)
  | inf s, fin _ => inf s
  | fin _, inf s => inf !s
  | inf s, inf t => if s = t then nan else inf s

/-- IEEE addition on cells. -/
def FV.add : FV → FV → FV
  | nan, _ => nan
  | _, nan => nan
  | fin a, fin b => fin (a + b)
  | inf s, fin _ => inf s
  | fin _, inf s => inf s
  | inf s, inf t => if s = t then inf s else nan

/-- IEEE multiplication on cells. -/
def FV.mul : FV → FV → FV
  | nan, _ => nan
  | _, nan => nan
  | fin a, fin b => fin (a * b)
  | inf s, fin b => if b = 0 then nan else if 0 < b then inf s else inf !s
  | fin a, inf s => if a = 0 then nan else if 0 < a then inf s else inf !s
  | inf s, inf t => if s = t then inf true else inf false

/-- IEEE division on cells: a nonzero finite numerator over zero is a signed
infinity, zero over zero is NaN (zero is treated as +0, as produced by the
pipeline's data). -/
def FV.div : FV → FV → FV
  | nan, _ => nan
  | _, nan => nan
  | fin a, fin b =>
      if b = 0 then (if a = 0 then nan else if 0 < a then inf true else inf false)
      else fin (a / b)
  | inf s, fin b => if 0 ≤ b then inf s else inf !s
  | fin _, inf _ => fin 0
  | inf _, inf _ => nan

/-- IEEE strict less-than: any comparison involving NaN is false. -/
def FV.ltb : FV → FV → Bool
  | nan, _ => false
  | _, nan => false
  | fin a, fin b => decide (a < b)
  | inf s, inf t => !s && t
  | inf s, fin _ => !s
  | fin _, inf t => t

/-- IEEE less-or-equal: any comparison involving NaN is false. -/
def FV.leb : FV → FV → Bool
  | nan, _ => false
  | _, nan => false
  | fin a, fin b => decide (a ≤ b)
  | inf s, inf t => !s || t
  | inf s, fin _ => !s
  | fin _, inf t => t

/-- The five trading zones of get_trading_recommendation (src/app.py lines 88-98). -/
inductive Zone where
  | bubble : Zone
  | overheated : Zone
  | normal : Zone
  | slow : Zone
  | retreat : Zone
deriving DecidableEq

/-- The literal recommendation string each zone carries in src/app.py. -/
def Zone.text : Zone → String
  | bubble => "버블구간: 매수중단 + 알파매도"
  | overheated => "과속구간: 차등 소량 매수"
  | normal => "평속구간: 정상 매수"
  | slow => "저속구간: 차등 과량 매수"
  | retreat => "후퇴구간: +알파 매수"

/-- get_trading_recommendation (src/app.py lines 88-98): the if/elif chain on
the velocity value.  Python's chained comparison 100 < v <= 150 is the
conjunction of the two comparisons; a NaN velocity makes every branch guard
false, and the function falls off the end returning None. -/
def get_trading_recommendation (velocity : FV) : Option Zone :=
  if FV.ltb (FV.fin 150) velocity then some Zone.bubble
  else if FV.ltb (FV.fin 100) velocity && FV.leb velocity (FV.fin 150) then some Zone.overheated
  else if FV.ltb (FV.fin 50) velocity && FV.leb velocity (FV.fin 100) then some Zone.normal
  else if FV.ltb (FV.fin 0) velocity && FV.leb velocity (FV.fin 50) then some Zone.slow
  else if FV.leb velocity (FV.fin 0) then some Zone.retreat
  else none

/-- pandas Series.shift(W) read at row i: NaN for the first W rows, the close
W rows back otherwise (src/app.py lines 17-19). -/
def shiftF (close : ℕ → ℚ) (W i : ℕ) : FV :=
  if i < W then FV.nan else FV.fin (close (i - W))

/-- One growth column cell: (Close - Close.shift(W)) / Close.shift(W) * 100
(src/app.py lines 17-19). -/
def growthF (close : ℕ → ℚ) (W i : ℕ) : FV :=
  FV.mul (FV.div (FV.sub (FV.fin (close i)) (shiftF close W i)) (shiftF close W i)) (FV.fin 100)

/-- One Velocity cell from the three growth cells:
(g240 * 1/3) + (g480 * 1/3) + (g1200 * 1/3), with Python's left-to-right
grouping ((g * 1) / 3) and left-associated addition (src/app.py line 20). -/
def velocityOf (a b c : FV) : FV :=
  FV.add
    (FV.add (FV.div (FV.mul a (FV.fin 1)) (FV.fin 3)) (FV.div (FV.mul b (FV.fin 1)) (FV.fin 3)))
    (FV.div (FV.mul c (FV.fin 1)) (FV.fin 3))

/-- The Velocity column read at row i. -/
def velF (close : ℕ → ℚ) (i : ℕ) : FV :=
  velocityOf (growthF close 240 i) (growthF close 480 i) (growthF close 1200 i)

/-- The dataframe flowing through the pipeline: row count, the Date and Close
columns produced by get_index_data, and the four derived columns, absent
(none) until calculate_velocity adds them. -/
structure DF where
  len : ℕ
  date : ℕ → ℤ
  close : ℕ → ℚ
  g240 : Option (ℕ → FV)
  g480 : Option (ℕ → FV)
  g1200 : Option (ℕ → FV)
  velocity : Option (ℕ → FV)

/-- calculate_velocity (src/app.py lines 15-21): writes the three growth
columns and the Velocity column, touching nothing else. -/
def calculate_velocity (df : DF) : DF :=
  { df with
    g240 := some (fun i => growthF df.close 240 i)
    g480 := some (fun i => growthF df.close 480 i)
    g1200 := some (fun i => growthF df.close 1200 i)
    velocity := some (fun i => velF df.close i) }

/-- Reading a possibly absent column at row i (absent columns are never read
by the pipeline after calculate_velocity has run). -/
def colVal (c : Option (ℕ → FV)) (i : ℕ) : FV :=
  match c with
  | none => FV.nan
  | some f => f i

/-- Whether a possibly absent column holds NaN at row i; an absent column
contributes nothing to dropna. -/
def colNaN (c : Option (ℕ → FV)) (i : ℕ) : Bool :=
  match c with
  | none => false
  | some f => (f i).isNaN

/-- Whether dropna removes row i: some cell of the row is NaN.  Date and
Close are never NaN in the model, matching the data source. -/
def rowNaN (df : DF) (i : ℕ) : Bool :=
  colNaN df.g240 i || colNaN df.g480 i || colNaN df.g1200 i || colNaN df.velocity i

/-- dropna (src/app.py line 62): the row indices that survive, in order. -/
def dropnaRows (df : DF) : List ℕ :=
  (List.range df.len).filter (fun i => !(rowNaN df i))

/-- The failure the script hits when the filtered frame is empty:
velocity_data.iloc[-1] on line 78 has no row to return. -/
inductive OrchErr where
  | insufficientHistory : OrchErr
deriving DecidableEq

/-- The orchestrating script (src/app.py lines 59-105): annotate with
calculate_velocity, dropna, take the last surviving row, and classify its
Velocity.  An empty filtered frame is the InsufficientHistory failure. -/
def orchestrate (df : DF) : Except OrchErr (ℕ × Option Zone) :=
  let vd := calculate_velocity df
  match (dropnaRows vd).getLast? with
  | none => Except.error OrchErr.insufficientHistory
  | some i => Except.ok (i, get_trading_recommendation (colVal vd.velocity i))

/-- The concrete series of spec Scenario C: 1201 records with
close[1200] = 300, close[960] = 200, close[720] = 250, close[0] = 100,
and an arbitrary positive value elsewhere. -/
def scenarioC : ℕ → ℚ := fun i =>
  if i = 1200 then 300 else if i = 960 then 200 else if i = 720 then 250
  else if i = 0 then 100 else 1

/-- A series whose first close is zero, so that a lookback window of 240
has a zero base at index 240. -/
def zeroBaseClose : ℕ → ℚ := fun i => if i = 0 then 0 else 1

lemma q1_ne : (1:ℚ) ≠ 0 := one_ne_zero

lemma q3_ne : (3:ℚ) ≠ 0 := by norm_num

lemma q100_ne : (100:ℚ) ≠ 0 := by norm_num

lemma q100_pos : (0:ℚ) < 100 := by norm_num

lemma q3_nonneg : (0:ℚ) ≤ 3 := by norm_num

lemma FV.add_nan (x : FV) : FV.add x FV.nan = FV.nan := by
  cases x <;> rfl

lemma FV.nan_add (x : FV) : FV.add FV.nan x = FV.nan := by
  cases x <;> rfl

lemma FV.mul_nan (x : FV) : FV.mul x FV.nan = FV.nan := by
  cases x <;> rfl

lemma FV.nan_mul (x : FV) : FV.mul FV.nan x = FV.nan := by
  cases x <;> rfl

lemma FV.div_nan (x : FV) : FV.div x FV.nan = FV.nan := by
  cases x <;> rfl

lemma FV.nan_div (x : FV) : FV.div FV.nan x = FV.nan := by
  cases x <;> rfl

lemma FV.isNaN_eq (x : FV) (h : x.isNaN = true) : x = FV.nan := by
  cases x <;> simp_all [FV.isNaN]

lemma growthF_of_lt (close : ℕ → ℚ) (W i : ℕ) (h : i < W) :
    growthF close W i = FV.nan := by
  simp [growthF, shiftF, h, FV.sub, FV.div, FV.mul]

lemma growthF_of_le (close : ℕ → ℚ) (W i : ℕ) (h : W ≤ i) (hz : close (i - W) ≠ 0) :
    growthF close W i = FV.fin ((close i - close (i - W)) / close (i - W) * 100) := by
  have h' : ¬ i < W := not_lt.mpr h
  simp [growthF, shiftF, h', FV.sub, FV.div, FV.mul, hz]

lemma velocityOf_fin (a b c : ℚ) :
    velocityOf (FV.fin a) (FV.fin b) (FV.fin c) = FV.fin (a / 3 + b / 3 + c / 3) := by
  simp [velocityOf, FV.mul, FV.div, FV.add, q3_ne]

lemma velocityOf_nan (a b c : FV)
    (h : a.isNaN = true ∨ b.isNaN = true ∨ c.isNaN = true) :
    velocityOf a b c = FV.nan := by
  rcases h with h | h | h <;> rw [FV.isNaN_eq _ h] <;>
    simp [velocityOf, FV.nan_add, FV.add_nan, FV.nan_mul, FV.nan_div]

/-- C1: for every price series of length L and every lookback window W in
the set of 240, 480 and 1200, the growth-rate calculator produces, at each
index i below L, the value (close i - close (i-W)) / close (i-W) * 100 when
W ≤ i and the base close is nonzero, and NaN when i < W. -/
theorem growth_window_formula (close : ℕ → ℚ) (L W i : ℕ)
    (hW : W = 240 ∨ W = 480 ∨ W = 1200) (hi : i < L) :
    (i < W → growthF close W i = FV.nan) ∧
    (W ≤ i → close (i - W) ≠ 0 →
      growthF close W i = FV.fin ((close i - close (i - W)) / close (i - W) * 100)) :=
  ⟨fun h => growthF_of_lt close W i h, fun h hz => growthF_of_le close W i h hz⟩

/-- Witness for growth_window_formula at the constant series 1, L = 301,
W = 240, i = 300. -/
theorem growth_window_formula_witness :
    ((240 = 240 ∨ 240 = 480 ∨ 240 = 1200) ∧ 300 < 301) ∧
    ((300 < 240 → growthF (fun _ => (1:ℚ)) 240 300 = FV.nan) ∧
     (240 ≤ 300 → (1:ℚ) ≠ 0 →
       growthF (fun _ => (1:ℚ)) 240 300 = FV.fin ((1 - 1) / 1 * 100))) :=
  ⟨⟨Or.inl rfl, by decide⟩,
   growth_window_formula (fun _ => 1) 301 240 300 (Or.inl rfl) (by decide)⟩

/-- C2: the aggregator produces velocity = g240/3 + g480/3 + g1200/3 when all
three growth cells are finite, NaN whenever any one of the three operands is
NaN, and for a series of positive closes the velocity at row i is a finite
value exactly when 1200 ≤ i. -/
theorem velocity_aggregation (close : ℕ → ℚ) (L i : ℕ) (hi : i < L) :
    (∀ a b c : ℚ, growthF close 240 i = FV.fin a → growthF close 480 i = FV.fin b →
       growthF close 1200 i = FV.fin c →
       velF close i = FV.fin (a / 3 + b / 3 + c / 3)) ∧
    (((growthF close 240 i).isNaN = true ∨ (growthF close 480 i).isNaN = true ∨
       (growthF close 1200 i).isNaN = true) → velF close i = FV.nan) ∧
    ((∀ j, j < L → 0 < close j) → ((∃ q, velF close i = FV.fin q) ↔ 1200 ≤ i)) := by
  refine ⟨?_, ?_, ?_⟩
  · intro a b c ha hb hc
    rw [velF, ha, hb, hc, velocityOf_fin]
  · intro h
    exact velocityOf_nan _ _ _ h
  · intro hpos
    constructor
    · rintro ⟨q, hq⟩
      by_contra hlt
      push_neg at hlt
      have hnan : velF close i = FV.nan :=
        velocityOf_nan _ _ _ (Or.inr (Or.inr (by rw [growthF_of_lt close 1200 i hlt]; rfl)))
      rw [hnan] at hq
      exact FV.noConfusion hq
    · intro h1200
      have h240 : (240:ℕ) ≤ i := le_trans (by norm_num) h1200
      have h480 : (480:ℕ) ≤ i := le_trans (by norm_num) h1200
      have hz240 : close (i - 240) ≠ 0 :=
        ne_of_gt (hpos _ (lt_of_le_of_lt (Nat.sub_le i 240) hi))
      have hz480 : close (i - 480) ≠ 0 :=
        ne_of_gt (hpos _ (lt_of_le_of_lt (Nat.sub_le i 480) hi))
      have hz1200 : close (i - 1200) ≠ 0 :=
        ne_of_gt (hpos _ (lt_of_le_of_lt (Nat.sub_le i 1200) hi))
      rw [velF, growthF_of_le _ _ _ h240 hz240, growthF_of_le _ _ _ h480 hz480,
        growthF_of_le _ _ _ h1200 hz1200, velocityOf_fin]
      exact ⟨_, rfl⟩

/-- Witness for velocity_aggregation at the constant series 100, L = 1201,
i = 1200. -/
theorem velocity_aggregation_witness :
    1200 < 1201 ∧
    ((∀ a b c : ℚ, growthF (fun _ => (100:ℚ)) 240 1200 = FV.fin a →
        growthF (fun _ => (100:ℚ)) 480 1200 = FV.fin b →
        growthF (fun _ => (100:ℚ)) 1200 1200 = FV.fin c →
        velF (fun _ => (100:ℚ)) 1200 = FV.fin (a / 3 + b / 3 + c / 3)) ∧
     (((growthF (fun _ => (100:ℚ)) 240 1200).isNaN = true ∨
        (growthF (fun _ => (100:ℚ)) 480 1200).isNaN = true ∨
        (growthF (fun _ => (100:ℚ)) 1200 1200).isNaN = true) →
       velF (fun _ => (100:ℚ)) 1200 = FV.nan) ∧
     ((∀ j, j < 1201 → 0 < (fun _ => (100:ℚ)) j) →
       ((∃ q, velF (fun _ => (100:ℚ)) 1200 = FV.fin q) ↔ 1200 ≤ 1200))) :=
  ⟨by decide, velocity_aggregation (fun _ => 100) 1201 1200 (by decide)⟩

/-- C9: the growth-rate calculator leaves the close values, the dates and the
row count of the frame unchanged; its only effect is to set the three growth
columns and the velocity column. -/
theorem calculate_velocity_frame (df : DF) :
    (calculate_velocity df).close = df.close ∧
    (calculate_velocity df).date = df.date ∧
    (calculate_velocity df).len = df.len ∧
    (calculate_velocity df).g240 = some (fun i => growthF df.close 240 i) ∧
    (calculate_velocity df).g480 = some (fun i => growthF df.close 480 i) ∧
    (calculate_velocity df).g1200 = some (fun i => growthF df.close 1200 i) ∧
    (calculate_velocity df).velocity = some (fun i => velF df.close i) :=
  ⟨rfl, rfl, rfl, rfl, rfl, rfl, rfl⟩

/-- C10: on a NaN velocity every branch comparison of the classifier is
false, so get_trading_recommendation returns none rather than raising or
returning one of the five zones. -/
theorem nan_velocity_no_recommendation :
    get_trading_recommendation FV.nan = none ∧
    FV.ltb (FV.fin 150) FV.nan = false ∧
    (FV.ltb (FV.fin 100) FV.nan && FV.leb FV.nan (FV.fin 150)) = false ∧
    (FV.ltb (FV.fin 50) FV.nan && FV.leb FV.nan (FV.fin 100)) = false ∧
    (FV.ltb (FV.fin 0) FV.nan && FV.leb FV.nan (FV.fin 50)) = false ∧
    FV.leb FV.nan (FV.fin 0) = false := by
  decide

/-- C3 counterexample: the claim maps 100 to Overheated and 50 to Normal,
but the classifier chain puts 100 in 50 < v ≤ 100 (Normal) and 50 in
0 < v ≤ 50 (Slow), its ranges being right-closed. -/
theorem classify_boundary_counterexample :
    get_trading_recommendation (FV.fin 100) = some Zone.normal ∧
    get_trading_recommendation (FV.fin 100) ≠ some Zone.overheated ∧
    get_trading_recommendation (FV.fin 50) = some Zone.slow ∧
    get_trading_recommendation (FV.fin 50) ≠ some Zone.normal := by
  decide

/-- C3 amended: each threshold boundary value falls in the zone whose range
is right-closed at it: 150 to Overheated, 100 to Normal, 50 to Slow, 0 to
Retreat, and any value strictly above 150 to Bubble. -/
theorem classify_boundary_amended (v : ℚ) (hv : 150 < v) :
    get_trading_recommendation (FV.fin 150) = some Zone.overheated ∧
    get_trading_recommendation (FV.fin 100) = some Zone.normal ∧
    get_trading_recommendation (FV.fin 50) = some Zone.slow ∧
    get_trading_recommendation (FV.fin 0) = some Zone.retreat ∧
    get_trading_recommendation (FV.fin v) = some Zone.bubble := by
  refine ⟨by decide, by decide, by decide, by decide, ?_⟩
  simp [get_trading_recommendation, FV.ltb, hv]

/-- Witness for classify_boundary_amended at v = 150.0000001. -/
theorem classify_boundary_amended_witness :
    (150:ℚ) < 1500000001 / 10000000 ∧
    (get_trading_recommendation (FV.fin 150) = some Zone.overheated ∧
     get_trading_recommendation (FV.fin 100) = some Zone.normal ∧
     get_trading_recommendation (FV.fin 50) = some Zone.slow ∧
     get_trading_recommendation (FV.fin 0) = some Zone.retreat ∧
     get_trading_recommendation (FV.fin (1500000001 / 10000000)) = some Zone.bubble) :=
  ⟨by norm_num, classify_boundary_amended (1500000001 / 10000000) (by norm_num)⟩

/-- C4: the classifier is total on finite inputs, and of the five zone
predicates exactly one holds at every rational velocity. -/
theorem classify_total_exclusive (v : ℚ) :
    (∃ z, get_trading_recommendation (FV.fin v) = some z) ∧
    ((150 < v ∧ ¬(100 < v ∧ v ≤ 150) ∧ ¬(50 < v ∧ v ≤ 100) ∧ ¬(0 < v ∧ v ≤ 50) ∧ ¬(v ≤ 0)) ∨
     (¬(150 < v) ∧ (100 < v ∧ v ≤ 150) ∧ ¬(50 < v ∧ v ≤ 100) ∧ ¬(0 < v ∧ v ≤ 50) ∧ ¬(v ≤ 0)) ∨
     (¬(150 < v) ∧ ¬(100 < v ∧ v ≤ 150) ∧ (50 < v ∧ v ≤ 100) ∧ ¬(0 < v ∧ v ≤ 50) ∧ ¬(v ≤ 0)) ∨
     (¬(150 < v) ∧ ¬(100 < v ∧ v ≤ 150) ∧ ¬(50 < v ∧ v ≤ 100) ∧ (0 < v ∧ v ≤ 50) ∧ ¬(v ≤ 0)) ∨
     (¬(150 < v) ∧ ¬(100 < v ∧ v ≤ 150) ∧ ¬(50 < v ∧ v ≤ 100) ∧ ¬(0 < v ∧ v ≤ 50) ∧ (v ≤ 0))) := by
  rcases lt_or_le 150 v with h1 | h1
  · refine ⟨⟨Zone.bubble, by simp [get_trading_recommendation, FV.ltb, h1]⟩, Or.inl ?_⟩
    exact ⟨h1, fun hc => by linarith [hc.2], fun hc => by linarith [hc.2],
      fun hc => by linarith [hc.2], fun hc => by linarith⟩
  rcases lt_or_le 100 v with h2 | h2
  · have h1' : ¬ (150:ℚ) < v := not_lt.mpr h1
    refine ⟨⟨Zone.overheated,
      by simp [get_trading_recommendation, FV.ltb, FV.leb, h1', h2, h1]⟩, Or.inr (Or.inl ?_)⟩
    exact ⟨h1', ⟨h2, h1⟩, fun hc => by linarith [hc.2], fun hc => by linarith [hc.2],
      fun hc => by linarith⟩
  rcases lt_or_le 50 v with h3 | h3
  · have h1' : ¬ (150:ℚ) < v := by push_neg; linarith
    have h2' : ¬ (100:ℚ) < v := not_lt.mpr h2
    refine ⟨⟨Zone.normal,
      by simp [get_trading_recommendation, FV.ltb, FV.leb, h1', h2', h3, h2]⟩,
      Or.inr (Or.inr (Or.inl ?_))⟩
    exact ⟨h1', fun hc => by linarith [hc.1], ⟨h3, h2⟩, fun hc => by linarith [hc.2],
      fun hc => by linarith⟩
  rcases lt_or_le 0 v with h4 | h4
  · have h1' : ¬ (150:ℚ) < v := by push_neg; linarith
    have h2' : ¬ (100:ℚ) < v := by push_neg; linarith
    have h3' : ¬ (50:ℚ) < v := not_lt.mpr h3
    refine ⟨⟨Zone.slow,
      by simp [get_trading_recommendation, FV.ltb, FV.leb, h1', h2', h3', h4, h3]⟩,
      Or.inr (Or.inr (Or.inr (Or.inl ?_)))⟩
    exact ⟨h1', fun hc => by linarith [hc.1], fun hc => by linarith [hc.1], ⟨h4, h3⟩,
      fun hc => by linarith⟩
  · have h1' : ¬ (150:ℚ) < v := by push_neg; linarith
    have h2' : ¬ (100:ℚ) < v := by push_neg; linarith
    have h3' : ¬ (50:ℚ) < v := by push_neg; linarith
    have h4' : ¬ (0:ℚ) < v := not_lt.mpr h4
    refine ⟨⟨Zone.retreat,
      by simp [get_trading_recommendation, FV.ltb, FV.leb, h1', h2', h3', h4', h4]⟩,
      Or.inr (Or.inr (Or.inr (Or.inr ?_)))⟩
    exact ⟨h1', fun hc => by linarith [hc.1], fun hc => by linarith [hc.1],
      fun hc => by linarith [hc.1], h4⟩

/-- C7: on the Scenario C series, row 1200 gets growth240 = 50,
growth480 = 20, growth1200 = 200, velocity = 90 and zone Normal. -/
theorem scenario_c_pipeline :
    growthF scenarioC 240 1200 = FV.fin 50 ∧
    growthF scenarioC 480 1200 = FV.fin 20 ∧
    growthF scenarioC 1200 1200 = FV.fin 200 ∧
    velF scenarioC 1200 = FV.fin 90 ∧
    get_trading_recommendation (velF scenarioC 1200) = some Zone.normal := by
  have h240 : growthF scenarioC 240 1200 = FV.fin 50 := by
    rw [growthF_of_le _ _ _ (by norm_num) (by norm_num [scenarioC])]
    norm_num [scenarioC]
  have h480 : growthF scenarioC 480 1200 = FV.fin 20 := by
    rw [growthF_of_le _ _ _ (by norm_num) (by norm_num [scenarioC])]
    norm_num [scenarioC]
  have h1200 : growthF scenarioC 1200 1200 = FV.fin 200 := by
    rw [growthF_of_le _ _ _ (by norm_num) (by norm_num [scenarioC])]
    norm_num [scenarioC]
  have hvel : velF scenarioC 1200 = FV.fin 90 := by
    rw [velF, h240, h480, h1200, velocityOf_fin]
    norm_num
  refine ⟨h240, h480, h1200, hvel, ?_⟩
  rw [hvel]
  decide

/-- C5: for every frame with fewer than 1200 rows the filtered sequence
after dropna is empty, and the orchestrating script fails with the
InsufficientHistory error instead of producing a row. -/
theorem insufficient_history_fails (df : DF) (h : df.len < 1200) :
    dropnaRows (calculate_velocity df) = [] ∧
    orchestrate df = Except.error OrchErr.insufficientHistory := by
  have hempty : dropnaRows (calculate_velocity df) = [] := by
    refine List.filter_eq_nil_iff.mpr ?_
    intro i hi
    have hlen : i < df.len := List.mem_range.mp hi
    have h1200 : i < 1200 := lt_trans hlen h
    simp [rowNaN, colNaN, calculate_velocity, growthF_of_lt df.close 1200 i h1200, FV.isNaN]
  refine ⟨hempty, ?_⟩
  simp only [orchestrate]
  rw [hempty]
  rfl

/-- Witness for insufficient_history_fails at a 1199-row frame of constant
close 100. -/
theorem insufficient_history_fails_witness :
    (DF.mk 1199 (fun _ => 0) (fun _ => 100) none none none none).len < 1200 ∧
    (dropnaRows (calculate_velocity
        (DF.mk 1199 (fun _ => 0) (fun _ => 100) none none none none)) = [] ∧
     orchestrate (DF.mk 1199 (fun _ => 0) (fun _ => 100) none none none none) =
       Except.error OrchErr.insufficientHistory) :=
  ⟨by decide, insufficient_history_fails _ (by decide)⟩

/-- C6 counterexample: with a zero close at the base of the 240-day window
and a nonzero close at the evaluated row, the growth cell is positive
infinity, not NaN as the claim states. -/
theorem zero_base_counterexample :
    growthF zeroBaseClose 240 240 = FV.inf true ∧
    growthF zeroBaseClose 240 240 ≠ FV.nan := by
  have h : growthF zeroBaseClose 240 240 = FV.inf true := by
    norm_num [growthF, shiftF, zeroBaseClose, FV.sub, FV.div, FV.mul]
  exact ⟨h, by rw [h]; decide⟩

/-- C6 amended: at a row W ≤ i whose lookback base close is zero, the growth
cell is NaN exactly when the evaluated close is also zero; a nonzero close
gives a signed infinity, which raises no arithmetic fault but is not NaN,
so the NaN-dropping filter does not remove it on account of this cell. -/
theorem zero_base_growth_amended (close : ℕ → ℚ) (W i : ℕ) (h : W ≤ i)
    (hz : close (i - W) = 0) :
    (close i = 0 → growthF close W i = FV.nan) ∧
    (close i ≠ 0 →
      growthF close W i = FV.inf (decide (0 < close i)) ∧
      (growthF close W i).isNaN = false) := by
  have h' : ¬ i < W := not_lt.mpr h
  constructor
  · intro h0
    simp [growthF, shiftF, h', hz, FV.sub, FV.div, FV.mul, h0]
  · intro h0
    have hmain : growthF close W i = FV.inf (decide (0 < close i)) := by
      rcases lt_or_le 0 (close i) with hgt | hle
      · simp [growthF, shiftF, h', hz, FV.sub, FV.div, FV.mul, h0, hgt, q100_ne, q100_pos]
      · have hlt : ¬ (0:ℚ) < close i := not_lt.mpr hle
        simp [growthF, shiftF, h', hz, FV.sub, FV.div, FV.mul, h0, hlt, q100_ne, q100_pos]
    exact ⟨hmain, by rw [hmain]; rfl⟩

/-- Witness for zero_base_growth_amended at the zero-base series, W = 240,
i = 240. -/
theorem zero_base_growth_amended_witness :
    240 ≤ 240 ∧ zeroBaseClose (240 - 240) = 0 ∧
    ((zeroBaseClose 240 = 0 → growthF zeroBaseClose 240 240 = FV.nan) ∧
     (zeroBaseClose 240 ≠ 0 →
       growthF zeroBaseClose 240 240 = FV.inf (decide ((0:ℚ) < zeroBaseClose 240)) ∧
       (growthF zeroBaseClose 240 240).isNaN = false)) :=
  ⟨by decide, by norm_num [zeroBaseClose],
   zero_base_growth_amended zeroBaseClose 240 240 (by decide) (by norm_num [zeroBaseClose])⟩

/-- C8: the pipeline is deterministic and stateless: its outcome depends
only on the row count and the close column, and rerunning it on the frame
already annotated by a previous run yields the same outcome. -/
theorem pipeline_deterministic (df df' : DF) (hlen : df.len = df'.len)
    (hclose : df.close = df'.close) :
    orchestrate df = orchestrate df' ∧
    orchestrate (calculate_velocity df) = orchestrate df := by
  constructor
  · simp only [orchestrate, calculate_velocity, dropnaRows, rowNaN, colNaN, colVal]
    rw [hlen, hclose]
  · rfl

/-- Witness for pipeline_deterministic at two empty frames differing only in
their date column. -/
theorem pipeline_deterministic_witness :
    (DF.mk 0 (fun _ => 0) (fun _ => 1) none none none none).len =
      (DF.mk 0 (fun _ => 7) (fun _ => 1) none none none none).len ∧
    (DF.mk 0 (fun _ => 0) (fun _ => 1) none none none none).close =
      (DF.mk 0 (fun _ => 7) (fun _ => 1) none none none none).close ∧
    (orchestrate (DF.mk 0 (fun _ => 0) (fun _ => 1) none none none none) =
       orchestrate (DF.mk 0 (fun _ => 7) (fun _ => 1) none none none none) ∧
     orchestrate (calculate_velocity (DF.mk 0 (fun _ => 0) (fun _ => 1) none none none none)) =
       orchestrate (DF.mk 0 (fun _ => 0) (fun _ => 1) none none none none)) :=
  ⟨rfl, rfl, pipeline_deterministic _ _ rfl rfl⟩

end VelocityDashboard
